import Mathlib

/-!
Shallow embedding of the payment-gated transaction-explanation pipeline
of the `explain-my-transaction` repository.

Source files embedded:
* `src/app/api/verify-payment/route.ts` — payment verifier (`verify`) plus
  its `GET` handler (`verifyPaymentGET` here);
* `src/app/api/explain/route.ts` — the explain route without a payment
  parameter (`explainGET` here);
* `src/unnamed/part_000`, first file — the explain route that gates the
  unlock flag on `isPaymentConfirmed` (`explainPayGET` here);
* `src/unnamed/part_000`, second file — the payment verifier variant with a
  minimum-confirmations check (`verifyConf` here).

Modelling conventions: machine big-ints become `Nat` (all amounts are
non-negative and never overflow in the source); addresses stay `String`,
since the source compares them with `toLowerCase()`; the ethers.js library
is an external collaborator, so the outcome of `iface.parseLog` is carried
on each event log as an `Option DecodedEvent` field, and every
provider-pool read appears as an `Except Unit` field of an environment
record (`.error` = the pool threw after exhausting all providers).
Display-only floating-point formatting (`toUSDC`, `toFixed(6)` fee
rendering) is not modelled: responses carry the raw integer amounts that
the source formats.  Each embedded handler also returns the list of
network reads it issued, in order, so that "no network call" claims are
statable.
-/

/-- Recipient of the payment (`PAYMENT_ADDRESS` in all route files). -/
def PAYMENT_ADDRESS : String := "0x3B5Ca729ae7D427616873f5CD0B9418243090c4c"

/-- USDC token contract on Base (`USDC_BASE` in all route files). -/
def USDC_BASE : String := "0x833589fCD6eDb6E08f4c7C32D4f71b54bdA02913"

/-- Required payment in USDC smallest units (`PRICE_USDC_UNITS = 3000000n`). -/
def PRICE_USDC_UNITS : Nat := 3000000

/-- Accepted network id (`BASE_CHAIN_ID = 8453`). -/
def BASE_CHAIN_ID : Nat := 8453

/-- Minimum confirmation depth (`MIN_CONFIRMATIONS = 1`, second file of
`src/unnamed/part_000` only; the `verify` of
`src/app/api/verify-payment/route.ts` has no such constant). -/
def MIN_CONFIRMATIONS : Int := 1

/-- Lower-casing of an address string (`String.toLowerCase()` in the
source; the strings compared are ASCII hex addresses).  Implemented over
the character list so it reduces definitionally. -/
def lowerCase (s : String) : String := ⟨s.data.map Char.toLower⟩

/-- Whitespace for JavaScript `String.prototype.trim` (the source trims
every query parameter before validation). -/
def isJsSpace (c : Char) : Bool :=
  c = ' ' || c = '\t' || c = '\n' || c = '\r' || c = '\x0b' || c = '\x0c'

/-- JavaScript `String.prototype.trim`, over the character list. -/
def jsTrim (s : String) : String :=
  ⟨((s.data.dropWhile isJsSpace).reverse.dropWhile isJsSpace).reverse⟩

/-- Hex-digit test for one character of the `[a-fA-F0-9]` class. -/
def isHexDig (c : Char) : Bool :=
  (decide ('0' ≤ c) && decide (c ≤ '9')) ||
  (decide ('a' ≤ c) && decide (c ≤ 'f')) ||
  (decide ('A' ≤ c) && decide (c ≤ 'F'))

/-- The hash-format test `isTxHash`, i.e. the regular expression
`^0x[a-fA-F0-9]\x7b64\x7d$` of every route file: a `0x` prefix followed by
exactly 64 hex digits and nothing else. -/
def isTxHash (s : String) : Bool :=
  match s.data with
  | '0' :: 'x' :: rest => rest.length == 64 && rest.all isHexDig
  | _ => false

/-- Result of `iface.parseLog` against the two event shapes the routes
know (`Transfer(from,to,value)` and `Approval(owner,spender,value)`);
ethers.js is external, so the decode outcome is data on the log. -/
inductive DecodedEvent where
  | transfer (sender recipient : String) (value : Nat)
  | approval (owner spender : String) (value : Nat)
  deriving DecidableEq

/-- An event log of a receipt: the emitting contract address (`none`
models a missing/absent `log.address` field) and the decode outcome
(`none` models a log matching neither known signature, on which
`parseLog` throws or returns null and the source skips the log). -/
structure EventLog where
  address : Option String
  decoded : Option DecodedEvent
  deriving DecidableEq

/-- A transaction receipt (`ReceiptRecord`): ethers status (1 = success),
inclusion block, gas figures (absent when the provider omits them) and
the emitted logs. -/
structure Receipt where
  status : Nat
  blockNumber : Nat
  gasUsed : Option Nat
  effectiveGasPrice : Option Nat
  logs : List EventLog
  deriving DecidableEq

/-- A transaction record (`TransactionRecord`): optional from/to
addresses, value in wei, call-data string (`"0x"` = empty payload) and
the inclusion block (`none` = still pending). -/
structure Tx where
  fromAddr : Option String
  toAddr : Option String
  value : Nat
  data : String
  blockNumber : Option Nat
  deriving DecidableEq

/-- One step of the USDC-payment summation loop shared by
`getPaidAmountFromLogs` (both verify files) and the log loop inside
`isPaymentConfirmed` (`src/unnamed/part_000` lines 58-75): skip a log
with no address (an empty-string address is equally skipped there, and
here falls out of the contract-address comparison, since the empty string
never lower-compares equal to `USDC_BASE`); skip a log not emitted by
`USDC_BASE` (case-insensitive); skip a log that does not decode as a
`Transfer`; add the amount when the recipient lower-compares equal to
`PAYMENT_ADDRESS`. -/
def paidStep (total : Nat) (log : EventLog) : Nat :=
  match log.address with
  | none => total
  | some a =>
    if lowerCase a = lowerCase USDC_BASE then
      match log.decoded with
      | some (.transfer _ recvr v) =>
        if lowerCase recvr = lowerCase PAYMENT_ADDRESS then total + v else total
      | _ => total
    else total

/-- `getPaidAmountFromLogs(logs)` of both verify files: fold `paidStep`
over the logs starting from `0n`. -/
def getPaidAmountFromLogs (logs : List EventLog) : Nat :=
  logs.foldl paidStep 0

/-- Spec-side mirror (for the refinement claim about the paid sum): a log
qualifies when it carries an address that matches the stablecoin contract
case-insensitively and decodes as a `Transfer` whose recipient matches the
payment address case-insensitively. -/
def specQualifyingLog (log : EventLog) : Bool :=
  match log.address, log.decoded with
  | some a, some (.transfer _ recvr _) =>
    lowerCase a = lowerCase USDC_BASE && lowerCase recvr = lowerCase PAYMENT_ADDRESS
  | _, _ => false

/-- Spec-side mirror: the amount a decoded `Transfer` log carries. -/
def specTransferAmount (log : EventLog) : Nat :=
  match log.decoded with
  | some (.transfer _ _ v) => v
  | _ => 0

/-- Rewrite the sender field of a `Transfer` log, leaving everything else
unchanged (used to state that the sender contributes nothing to the paid
sum). -/
def setSender (f : String → String) (log : EventLog) : EventLog :=
  { log with
    decoded :=
      match log.decoded with
      | some (.transfer s recvr v) => some (.transfer (f s) recvr v)
      | d => d }

/-- The network reads a handler can issue, in the order the source issues
them.  `payReceiptQ` is the receipt lookup done for the payment
transaction inside `isPaymentConfirmed`; the remaining reads target the
transaction under verification/explanation. -/
inductive Rpc where
  | network
  | receiptQ
  | txQ
  | blockQ
  | logsQ
  | payReceiptQ
  deriving DecidableEq

/-- The JSON body built by both `verify` variants: the `ok` field, the
`status` string, the raw paid amount (the source attaches
`toUSDC(paid)`, a display formatting of exactly this number; branches
without a `paidUSDC` field carry `none`) and the `message` string. -/
structure VerifyResult where
  ok : Bool
  status : String
  paid : Option Nat
  message : String
  deriving DecidableEq

/-- Everything a single `verify` run can read from the provider pool.
Each field is the outcome of one `withAnyProvider(...)` call:
`.error ()` models the pool throwing after every provider failed. -/
structure VerifyEnv where
  network : Except Unit Nat
  receiptFetch : Except Unit (Option Receipt)
  txFetch : Except Unit (Option Tx)
  latest : Except Unit Nat
  logsFetch : Except Unit (List EventLog)

/-- `verify(txHash)` of `src/app/api/verify-payment/route.ts` (lines
83-182), paired with the trace of pool reads it issues: check the
network id first (wrong network is terminal `FAILED`); then try the
receipt (a pool throw here is caught and treated as no receipt); a
present receipt decides `FAILED`/`CONFIRMED`/`PENDING` from its status
and the summed paid amount; with no receipt, fall back to the
transaction record (`NOT_FOUND` / still-pending `PENDING`) and then to a
block-range log query summed the same way.  Pool throws outside the
receipt try/catch propagate (`.error`). -/
def verify (env : VerifyEnv) : List Rpc × Except Unit VerifyResult :=
  match env.network with
  | .error e => ([.network], .error e)
  | .ok chainId =>
    if chainId ≠ BASE_CHAIN_ID then
      ([.network], .ok ⟨false, "FAILED", none, "Wrong network. Payment must be on Base."⟩)
    else
      match (match env.receiptFetch with | .error _ => none | .ok r => r : Option Receipt) with
      | some r =>
        if r.status ≠ 1 then
          ([.network, .receiptQ], .ok ⟨false, "FAILED", none, "Transaction failed."⟩)
        else
          if PRICE_USDC_UNITS ≤ getPaidAmountFromLogs r.logs then
            ([.network, .receiptQ],
             .ok ⟨true, "CONFIRMED", some (getPaidAmountFromLogs r.logs), "Payment confirmed."⟩)
          else
            ([.network, .receiptQ],
             .ok ⟨true, "PENDING", some (getPaidAmountFromLogs r.logs),
                  "Transaction found, but payment not detected yet."⟩)
      | none =>
        match env.txFetch with
        | .error e => ([.network, .receiptQ, .txQ], .error e)
        | .ok none =>
          ([.network, .receiptQ, .txQ], .ok ⟨true, "NOT_FOUND", none, "Transaction not found yet."⟩)
        | .ok (some t) =>
          match t.blockNumber with
          | none =>
            ([.network, .receiptQ, .txQ],
             .ok ⟨true, "PENDING", none, "Transaction is still pending."⟩)
          | some _ =>
            match env.logsFetch with
            | .error e => ([.network, .receiptQ, .txQ, .logsQ], .error e)
            | .ok logs =>
              if PRICE_USDC_UNITS ≤ getPaidAmountFromLogs logs then
                ([.network, .receiptQ, .txQ, .logsQ],
                 .ok ⟨true, "CONFIRMED", some (getPaidAmountFromLogs logs),
                      "Payment confirmed (logs fallback)."⟩)
              else
                ([.network, .receiptQ, .txQ, .logsQ],
                 .ok ⟨true, "PENDING", some (getPaidAmountFromLogs logs),
                      "Transaction found, waiting for payment."⟩)

/-- `verify(txHash)` of the second file of `src/unnamed/part_000` (lines
285-383): identical to `verify` above except that a successful receipt
additionally requires `latestBlock - receipt.blockNumber + 1 ≥
MIN_CONFIRMATIONS` (computed over JavaScript numbers, hence over `Int`
here), returning `PENDING` with no amount attached when the depth is not
yet reached. -/
def verifyConf (env : VerifyEnv) : Except Unit VerifyResult :=
  match env.network with
  | .error e => .error e
  | .ok chainId =>
    if chainId ≠ BASE_CHAIN_ID then
      .ok ⟨false, "FAILED", none, "Wrong network. Payment must be on Base."⟩
    else
      match (match env.receiptFetch with | .error _ => none | .ok r => r : Option Receipt) with
      | some r =>
        if r.status ≠ 1 then .ok ⟨false, "FAILED", none, "Transaction failed."⟩
        else
          match env.latest with
          | .error e => .error e
          | .ok latestBlock =>
            if (latestBlock : Int) - (r.blockNumber : Int) + 1 < MIN_CONFIRMATIONS then
              .ok ⟨true, "PENDING", none, "Waiting for confirmations."⟩
            else
              if PRICE_USDC_UNITS ≤ getPaidAmountFromLogs r.logs then
                .ok ⟨true, "CONFIRMED", some (getPaidAmountFromLogs r.logs), "Payment confirmed."⟩
              else
                .ok ⟨true, "PENDING", some (getPaidAmountFromLogs r.logs),
                     "Transaction found, but payment not detected yet."⟩
      | none =>
        match env.txFetch with
        | .error e => .error e
        | .ok none => .ok ⟨true, "NOT_FOUND", none, "Transaction not found yet."⟩
        | .ok (some t) =>
          match t.blockNumber with
          | none => .ok ⟨true, "PENDING", none, "Transaction is still pending."⟩
          | some _ =>
            match env.logsFetch with
            | .error e => .error e
            | .ok logs =>
              if PRICE_USDC_UNITS ≤ getPaidAmountFromLogs logs then
                .ok ⟨true, "CONFIRMED", some (getPaidAmountFromLogs logs),
                     "Payment confirmed (logs fallback)."⟩
              else
                .ok ⟨true, "PENDING", some (getPaidAmountFromLogs logs),
                     "Transaction found, waiting for payment."⟩

/-- `GET ?payTx=...` of `src/app/api/verify-payment/route.ts` (lines
187-200): trim the parameter, reject a malformed hash with an HTTP 400
`FAILED` body and no pool read, and otherwise answer with `verify`'s
result under HTTP 200 (a `verify` throw propagates out of the handler).
The first component of the `Except` payload is the HTTP status code. -/
def verifyPaymentGET (rawPayTx : String) (env : VerifyEnv) :
    List Rpc × Except Unit (Nat × VerifyResult) :=
  let txHash := jsTrim rawPayTx
  if isTxHash txHash = false then
    ([], .ok (400, ⟨false, "FAILED", none, "Invalid tx hash."⟩))
  else
    match verify env with
    | (qs, .error e) => (qs, .error e)
    | (qs, .ok r) => (qs, .ok (200, r))

/-- State of the log-classification loop of both explain routes
(`src/app/api/explain/route.ts` lines 67-92, `src/unnamed/part_000` lines
142-164): the JavaScript `Set` of lower-cased touched contract addresses
is modelled as its insertion-ordered duplicate-free list, next to the two
event counters. -/
structure ClassifyState where
  touched : List String
  tokenTransfers : Nat
  approvals : Nat
  deriving DecidableEq

/-- Insertion into the touched-contracts `Set`: keep the list unchanged
when the element is already present, otherwise append it. -/
def addTouched (s : List String) (a : String) : List String :=
  if a ∈ s then s else s ++ [a]

/-- One iteration of the classification loop: add the lower-cased
emitting address when the `log?.address` truthiness test passes (a
missing or empty address is not added), then bump the `Transfer` or
`Approval` counter according to the decode outcome, silently skipping a
log that decodes as neither. -/
def classifyLog (st : ClassifyState) (log : EventLog) : ClassifyState :=
  let touched :=
    match log.address with
    | some a => if a = "" then st.touched else addTouched st.touched (lowerCase a)
    | none => st.touched
  match log.decoded with
  | some (.transfer _ _ _) => ⟨touched, st.tokenTransfers + 1, st.approvals⟩
  | some (.approval _ _ _) => ⟨touched, st.tokenTransfers, st.approvals + 1⟩
  | none => ⟨touched, st.tokenTransfers, st.approvals⟩

/-- The whole classification loop over a receipt's logs. -/
def classifyLogs (logs : List EventLog) : ClassifyState :=
  logs.foldl classifyLog ⟨[], 0, 0⟩

/-- The derived risk label of both explain routes: `Medium` when any
`Approval` was decoded, else `Low–Medium` when more than one distinct
contract was touched, else `Low`. -/
def riskOf (st : ClassifyState) : String :=
  if 0 < st.approvals then "Medium"
  else if 1 < st.touched.length then "Low–Medium" else "Low"

/-- `short(addr)` of both explain routes: em dash for a missing or empty
address, otherwise the first six characters, an ellipsis, and the last
four. -/
def short (addr : Option String) : String :=
  match addr with
  | none => "—"
  | some a => if a = "" then "—" else a.take 6 ++ "…" ++ a.drop (a.length - 4)

/-- The `ethers.getAddress` checksum re-encoding of an address string is
external-library, display-only case normalisation; it is modelled as the
identity. -/
def getAddress (a : String) : String := a

/-- `transaction.from ? ethers.getAddress(transaction.from) : null` of
both explain routes (truthiness: a missing or empty string gives null). -/
def normAddr (a : Option String) : Option String :=
  match a with
  | some s => if s = "" then none else some (getAddress s)
  | none => none

/-- The six explanation bullet lines both explain routes build, joined by
newlines. -/
def explLines (fromA toA : Option String) (st : ClassifyState) : String :=
  "• From: " ++ short fromA ++ "\n" ++
  "• To: " ++ short toA ++ "\n" ++
  "• Contracts touched: " ++ toString st.touched.length ++ "\n" ++
  "• Token transfers: " ++ toString st.tokenTransfers ++ "\n" ++
  "• Approvals: " ++ toString st.approvals ++ "\n" ++
  "• Risk level: " ++ riskOf st

/-- The `basescanUrl` both explain routes compute from the (trimmed)
target-hash parameter. -/
def basescanUrl (tx : String) : String :=
  if tx = "" then "https://basescan.org" else "https://basescan.org/tx/" ++ tx

/-- The JSON body of `src/app/api/explain/route.ts` (no fee field). -/
structure PlainResp where
  summary : String
  explanation : String
  basescan : String
  accessUnlocked : Bool
  deriving DecidableEq

/-- Pool reads available to the explain route without a payment
parameter: the target transaction and its receipt. -/
structure FetchEnv where
  txFetch : Except Unit (Option Tx)
  receiptFetch : Except Unit (Option Receipt)

/-- `GET ?tx=...` of `src/app/api/explain/route.ts` (lines 34-118),
paired with its trace of pool reads: a missing or malformed hash returns
the placeholder with `accessUnlocked: false` and no read; otherwise both
the transaction and the receipt are fetched (a pool throw lands in the
catch-all response with `accessUnlocked: false`); when either is absent a
still-loading response with `accessUnlocked: false` is returned; when
both are present the classification response is returned with
`accessUnlocked: true` unconditionally (line 100) — this route has no
payment parameter at all. -/
def explainGET (rawTx : String) (env : FetchEnv) : List Rpc × PlainResp :=
  let tx := jsTrim rawTx
  if tx = "" ∨ isTxHash tx = false then
    ([],
     ⟨"Paste a transaction hash",
      "Enter a valid Base transaction hash to see what really happened.",
      basescanUrl tx, false⟩)
  else
    match env.txFetch with
    | .error _ =>
      ([.txQ],
       ⟨"Unable to analyze transaction",
        "We couldn’t analyze this transaction right now. Please try again.",
        basescanUrl tx, false⟩)
    | .ok t =>
      match env.receiptFetch with
      | .error _ =>
        ([.txQ, .receiptQ],
         ⟨"Unable to analyze transaction",
          "We couldn’t analyze this transaction right now. Please try again.",
          basescanUrl tx, false⟩)
      | .ok r =>
        match t, r with
        | some t, some r =>
          let st := classifyLogs r.logs
          ([.txQ, .receiptQ],
           ⟨if 0 < t.value ∧ t.data = "0x" then "ETH transfer" else "Contract interaction",
            explLines (normAddr t.fromAddr) (normAddr t.toAddr) st,
            basescanUrl tx, true⟩)
        | _, _ =>
          ([.txQ, .receiptQ],
           ⟨"Transaction found",
            "We found this transaction, but details are still loading. Try again shortly.",
            basescanUrl tx, false⟩)

/-- `isPaymentConfirmed(payTx)` of `src/unnamed/part_000` (lines 41-78):
false for a malformed hash (no pool read); fetch the receipt, any pool
throw being caught as a missing receipt; false with no receipt or a
non-success status; otherwise true exactly when the summed qualifying
USDC transfers reach `PRICE_USDC_UNITS`.  The argument `receiptFetch` is
the outcome of its one `withAnyProvider` call. -/
def isPaymentConfirmed (payTx : String) (receiptFetch : Except Unit (Option Receipt)) : Bool :=
  if isTxHash payTx = false then false
  else
    match (match receiptFetch with | .error _ => none | .ok r => r : Option Receipt) with
    | none => false
    | some r =>
      if r.status ≠ 1 then false
      else decide (PRICE_USDC_UNITS ≤ getPaidAmountFromLogs r.logs)

/-- The JSON body of the gated explain route of `src/unnamed/part_000`
(with a fee field; the source renders `gasUsed * effectiveGasPrice` with
floating-point `toFixed(6)`, so the raw wei product is carried, `none`
standing for the `"—"` placeholder). -/
structure GatedResp where
  summary : String
  fee : Option Nat
  explanation : String
  basescan : String
  accessUnlocked : Bool
  deriving DecidableEq

/-- Pool reads available to the gated explain route: the payment
transaction's receipt (inside `isPaymentConfirmed`), then the target
transaction and its receipt. -/
structure GatedEnv where
  payReceiptFetch : Except Unit (Option Receipt)
  txFetch : Except Unit (Option Tx)
  receiptFetch : Except Unit (Option Receipt)

/-- `GET ?tx=...&payTx=...` of the first file of `src/unnamed/part_000`
(lines 80-201), paired with its trace of pool reads: a missing or
malformed target hash returns the placeholder with `accessUnlocked:
false` and no read; otherwise the unlock flag is computed solely from the
payment parameter — `false` when absent, else `isPaymentConfirmed` on it
(whose own catch makes a thrown verification error read as `false`);
then the target transaction and receipt are fetched, every response
branch (catch-all, transaction-missing, and full classification) carrying
that same unlock flag.  A missing receipt leaves the fee at `—` and the
classification counters at zero. -/
def explainPayGET (rawTx rawPayTx : String) (env : GatedEnv) : List Rpc × GatedResp :=
  let tx := jsTrim rawTx
  let payTx := jsTrim rawPayTx
  if tx = "" ∨ isTxHash tx = false then
    ([],
     ⟨"Paste a transaction hash", none,
      "Enter a valid Base transaction hash (0x...) and press Explain.",
      basescanUrl tx, false⟩)
  else
    let payTrace : List Rpc :=
      if payTx = "" then [] else if isTxHash payTx then [.payReceiptQ] else []
    let accessUnlocked :=
      if payTx ≠ "" then isPaymentConfirmed payTx env.payReceiptFetch else false
    match env.txFetch with
    | .error _ =>
      (payTrace ++ [.txQ],
       ⟨"We can’t load details right now", none,
        "We couldn’t load enough information at the moment. Open it on BaseScan and try again.",
        basescanUrl tx, accessUnlocked⟩)
    | .ok t =>
      match env.receiptFetch with
      | .error _ =>
        (payTrace ++ [.txQ, .receiptQ],
         ⟨"We can’t load details right now", none,
          "We couldn’t load enough information at the moment. Open it on BaseScan and try again.",
          basescanUrl tx, accessUnlocked⟩)
      | .ok r =>
        match t with
        | none =>
          (payTrace ++ [.txQ, .receiptQ],
           ⟨"We can’t load details right now", none,
            "This transaction may be real, but we couldn’t load its details at the moment. Open it on BaseScan and try again in a minute.",
            basescanUrl tx, accessUnlocked⟩)
        | some t =>
          let fee : Option Nat :=
            match r with
            | some rr =>
              match rr.gasUsed, rr.effectiveGasPrice with
              | some g, some p => some (g * p)
              | _, _ => none
            | none => none
          let st := match r with | some rr => classifyLogs rr.logs | none => ⟨[], 0, 0⟩
          (payTrace ++ [.txQ, .receiptQ],
           ⟨if 0 < t.value ∧ t.data = "0x" then "ETH transfer" else "Contract interaction",
            fee,
            explLines (normAddr t.fromAddr) (normAddr t.toAddr) st,
            basescanUrl tx, accessUnlocked⟩)

/-- The failover loop body of `withAnyProvider` (identical in all three
route files): walk the ordered provider list carrying the last error
seen; for each candidate run the liveness probe (`getBlockNumber`) and,
on probe success, the requested operation, returning the first
operation result obtained; a probe or operation error is recorded and
the next candidate tried; an exhausted list throws the recorded error
(`.error none` is the `lastErr ?? new Error(...)` fallback for an empty
pool). -/
def withAnyProviderGo {P E α : Type} (probe : P → Except E Nat) (op : P → Except E α) :
    List P → Option E → Except (Option E) α
  | [], lastErr => .error lastErr
  | p :: rest, _lastErr =>
    match probe p with
    | .error e => withAnyProviderGo probe op rest (some e)
    | .ok _ =>
      match op p with
      | .error e => withAnyProviderGo probe op rest (some e)
      | .ok v => .ok v

/-- `withAnyProvider(fn)` over an ordered provider list: the loop above
started with no recorded error. -/
def withAnyProvider {P E α : Type} (probe : P → Except E Nat) (op : P → Except E α)
    (providers : List P) : Except (Option E) α :=
  withAnyProviderGo probe op providers none

/-- Spec-side mirror: a log the classifier counts as a token transfer
(decodes as `Transfer`). -/
def isTransferLog (log : EventLog) : Bool :=
  match log.decoded with
  | some (.transfer _ _ _) => true
  | _ => false

/-- Spec-side mirror: a log the classifier counts as an approval
(decodes as `Approval`). -/
def isApprovalLog (log : EventLog) : Bool :=
  match log.decoded with
  | some (.approval _ _ _) => true
  | _ => false

lemma paidStep_eq (acc : Nat) (log : EventLog) :
    paidStep acc log = acc + (if specQualifyingLog log then specTransferAmount log else 0) := by
  rcases log with ⟨addr, dec⟩
  rcases addr with _ | a
  · simp [paidStep, specQualifyingLog]
  · rcases dec with _ | (⟨s, recvr, v⟩ | ⟨o, sp, v⟩) <;>
      simp only [paidStep, specQualifyingLog, specTransferAmount] <;>
      split_ifs <;> simp_all

lemma getPaid_go (logs : List EventLog) :
    ∀ acc : Nat, logs.foldl paidStep acc =
      acc + ((logs.filter specQualifyingLog).map specTransferAmount).sum := by
  induction logs with
  | nil => intro acc; simp
  | cons l ls ih =>
    intro acc
    rw [List.foldl_cons, ih, paidStep_eq]
    by_cases h : specQualifyingLog l <;> simp [h, List.filter_cons] <;> omega

lemma getPaid_filter_sum (logs : List EventLog) :
    getPaidAmountFromLogs logs =
      ((logs.filter specQualifyingLog).map specTransferAmount).sum := by
  simpa using getPaid_go logs 0

lemma paidStep_setSender (f : String → String) (acc : Nat) (log : EventLog) :
    paidStep acc (setSender f log) = paidStep acc log := by
  rcases log with ⟨addr, dec⟩
  rcases addr with _ | a <;> rcases dec with _ | (⟨s, recvr, v⟩ | ⟨o, sp, v⟩) <;>
    simp [paidStep, setSender]

lemma getPaid_setSender_go (f : String → String) (logs : List EventLog) :
    ∀ acc : Nat, (logs.map (setSender f)).foldl paidStep acc = logs.foldl paidStep acc := by
  induction logs with
  | nil => intro acc; rfl
  | cons l ls ih => intro acc; rw [List.map_cons, List.foldl_cons, List.foldl_cons,
      paidStep_setSender, ih]

/-- C3: the paid amount computed by the payment verifier equals the sum of
the amounts of exactly those logs that are emitted by the configured
stablecoin contract (case-insensitively) and decode as a `Transfer` whose
recipient matches the configured payment address (case-insensitively);
and the sender field of every log contributes nothing: rewriting all
sender fields leaves the sum unchanged. -/
theorem getPaidAmountFromLogs_qualifying_sum (logs : List EventLog) (f : String → String) :
    getPaidAmountFromLogs logs =
      ((logs.filter specQualifyingLog).map specTransferAmount).sum ∧
    getPaidAmountFromLogs (logs.map (setSender f)) = getPaidAmountFromLogs logs := by
  refine ⟨getPaid_filter_sum logs, ?_⟩
  unfold getPaidAmountFromLogs
  exact getPaid_setSender_go f logs 0

lemma mem_addTouched (x : String) (s : List String) (a : String) :
    x ∈ addTouched s a ↔ x ∈ s ∨ x = a := by
  unfold addTouched
  by_cases h : a ∈ s
  · rw [if_pos h]
    exact ⟨Or.inl, fun hx => hx.elim id (fun hxa => hxa ▸ h)⟩
  · rw [if_neg h]
    simp

lemma classifyLog_touched_none (st : ClassifyState) (log : EventLog)
    (h : log.address = none) : (classifyLog st log).touched = st.touched := by
  rcases log with ⟨addr, dec⟩
  cases h
  rcases dec with _ | (⟨s, recvr, v⟩ | ⟨o, sp, v⟩) <;> rfl

lemma classifyLog_touched_empty (st : ClassifyState) (log : EventLog)
    (h : log.address = some "") : (classifyLog st log).touched = st.touched := by
  rcases log with ⟨addr, dec⟩
  cases h
  rcases dec with _ | (⟨s, recvr, v⟩ | ⟨o, sp, v⟩) <;> simp [classifyLog]

lemma classifyLog_touched_some (st : ClassifyState) (log : EventLog) (a : String)
    (h : log.address = some a) (hne : a ≠ "") :
    (classifyLog st log).touched = addTouched st.touched (lowerCase a) := by
  rcases log with ⟨addr, dec⟩
  cases h
  rcases dec with _ | (⟨s, recvr, v⟩ | ⟨o, sp, v⟩) <;> simp [classifyLog, hne]

lemma classifyLog_transfers (st : ClassifyState) (log : EventLog) :
    (classifyLog st log).tokenTransfers =
      st.tokenTransfers + (if isTransferLog log then 1 else 0) := by
  rcases log with ⟨addr, dec⟩
  rcases dec with _ | (⟨s, recvr, v⟩ | ⟨o, sp, v⟩) <;> simp [classifyLog, isTransferLog]

lemma classifyLog_approvals (st : ClassifyState) (log : EventLog) :
    (classifyLog st log).approvals =
      st.approvals + (if isApprovalLog log then 1 else 0) := by
  rcases log with ⟨addr, dec⟩
  rcases dec with _ | (⟨s, recvr, v⟩ | ⟨o, sp, v⟩) <;> simp [classifyLog, isApprovalLog]

lemma classify_go_transfers (logs : List EventLog) :
    ∀ st : ClassifyState,
      (logs.foldl classifyLog st).tokenTransfers =
        st.tokenTransfers + (logs.filter isTransferLog).length := by
  induction logs with
  | nil => intro st; simp
  | cons l ls ih =>
    intro st
    rw [List.foldl_cons, ih, classifyLog_transfers]
    by_cases h : isTransferLog l <;> simp [h, List.filter_cons] <;> omega

lemma classify_go_approvals (logs : List EventLog) :
    ∀ st : ClassifyState,
      (logs.foldl classifyLog st).approvals =
        st.approvals + (logs.filter isApprovalLog).length := by
  induction logs with
  | nil => intro st; simp
  | cons l ls ih =>
    intro st
    rw [List.foldl_cons, ih, classifyLog_approvals]
    by_cases h : isApprovalLog l <;> simp [h, List.filter_cons] <;> omega

lemma classifyLog_touched_mem (st : ClassifyState) (log : EventLog) (x : String) :
    x ∈ (classifyLog st log).touched ↔
      x ∈ st.touched ∨ ∃ a, log.address = some a ∧ a ≠ "" ∧ lowerCase a = x := by
  rcases hl : log.address with _ | a
  · rw [classifyLog_touched_none st log hl]
    simp [hl]
  · by_cases he : a = ""
    · subst he
      rw [classifyLog_touched_empty st log hl]
      simp [hl]
    · rw [classifyLog_touched_some st log a hl he, mem_addTouched]
      simp only [Option.some.injEq]
      constructor
      · rintro (hx | hx)
        · exact Or.inl hx
        · exact Or.inr ⟨a, rfl, he, hx.symm⟩
      · rintro (hx | ⟨a', rfl, he', hx'⟩)
        · exact Or.inl hx
        · exact Or.inr hx'.symm

lemma classify_go_touched (logs : List EventLog) (x : String) :
    ∀ st : ClassifyState,
      (x ∈ (logs.foldl classifyLog st).touched ↔
        x ∈ st.touched ∨ ∃ l ∈ logs, ∃ a, l.address = some a ∧ a ≠ "" ∧ lowerCase a = x) := by
  induction logs with
  | nil => intro st; simp
  | cons l ls ih =>
    intro st
    rw [List.foldl_cons, ih, classifyLog_touched_mem]
    constructor
    · rintro ((hx | ⟨a, ha, he, hx⟩) | ⟨l', hl', a, ha, he, hx⟩)
      · exact Or.inl hx
      · exact Or.inr ⟨l, List.mem_cons_self l ls, a, ha, he, hx⟩
      · exact Or.inr ⟨l', List.mem_cons_of_mem l hl', a, ha, he, hx⟩
    · rintro (hx | ⟨l', hl', a, ha, he, hx⟩)
      · exact Or.inl (Or.inl hx)
      · rcases List.mem_cons.mp hl' with rfl | hmem
        · exact Or.inl (Or.inr ⟨a, ha, he, hx⟩)
        · exact Or.inr ⟨l', hmem, a, ha, he, hx⟩

/-- C9: the classifier counts exactly the logs decoding as `Transfer`
and as `Approval`, adds the lower-cased emitting address of every log
that has one to the touched-contracts set regardless of decodability,
and on the scenario of one `Approval` log and one `Transfer` log from
two distinct contracts yields two touched contracts, one token transfer,
one approval and risk label `Medium`. -/
theorem classifyLogs_counts_touched_and_risk :
    (∀ logs : List EventLog,
      (classifyLogs logs).tokenTransfers = (logs.filter isTransferLog).length ∧
      (classifyLogs logs).approvals = (logs.filter isApprovalLog).length ∧
      ∀ x, x ∈ (classifyLogs logs).touched ↔
        ∃ l ∈ logs, ∃ a, l.address = some a ∧ a ≠ "" ∧ lowerCase a = x) ∧
    (classifyLogs [⟨some "0xAA", some (.approval "0xo" "0xs" 5)⟩,
                   ⟨some "0xBB", some (.transfer "0xf" "0xt" 7)⟩] =
       ⟨["0xaa", "0xbb"], 1, 1⟩ ∧
     riskOf (classifyLogs [⟨some "0xAA", some (.approval "0xo" "0xs" 5)⟩,
                           ⟨some "0xBB", some (.transfer "0xf" "0xt" 7)⟩]) = "Medium") := by
  refine ⟨fun logs => ⟨?_, ?_, fun x => ?_⟩, by decide, by decide⟩
  · simpa using classify_go_transfers logs ⟨[], 0, 0⟩
  · simpa using classify_go_approvals logs ⟨[], 0, 0⟩
  · simpa using classify_go_touched logs x ⟨[], 0, 0⟩

lemma withAnyProviderGo_all_fail {P E α : Type} (probe : P → Except E Nat)
    (op : P → Except E α) (ps : List P) (l : List P)
    (hfail : ∀ q ∈ ps, ∃ err, probe q = .error err) :
    ∀ acc : Option E, ∃ acc' : Option E,
      withAnyProviderGo probe op (ps ++ l) acc = withAnyProviderGo probe op l acc' := by
  induction ps with
  | nil => intro acc; exact ⟨acc, rfl⟩
  | cons q qs ih =>
    intro acc
    obtain ⟨err, herr⟩ := hfail q (List.mem_cons_self q qs)
    rw [List.cons_append]
    show ∃ acc', (match probe q with
      | .error e => withAnyProviderGo probe op (qs ++ l) (some e)
      | .ok _ => match op q with
        | .error e => withAnyProviderGo probe op (qs ++ l) (some e)
        | .ok v => .ok v) = withAnyProviderGo probe op l acc'
    rw [herr]
    exact ih (fun q' hq' => hfail q' (List.mem_cons_of_mem q hq')) (some err)

/-- C7: with every provider before the last failing its liveness probe,
the pool operation returns the last provider's operation result when its
probe succeeds; and when the last probe fails too, the pool fails
carrying that last observed error. -/
theorem withAnyProvider_failover {P E α : Type} (probe : P → Except E Nat)
    (op : P → Except E α) (ps : List P) (p : P) (b : Nat) (v : α) (e : E)
    (hfail : ∀ q ∈ ps, ∃ err, probe q = .error err) :
    (probe p = .ok b → op p = .ok v →
      withAnyProvider probe op (ps ++ [p]) = .ok v) ∧
    (probe p = .error e →
      withAnyProvider probe op (ps ++ [p]) = .error (some e)) := by
  obtain ⟨acc', hacc⟩ := withAnyProviderGo_all_fail probe op ps [p] hfail none
  unfold withAnyProvider
  rw [hacc]
  constructor
  · intro hp hop
    show (match probe p with
      | .error e => withAnyProviderGo probe op [] (some e)
      | .ok _ => match op p with
        | .error e => withAnyProviderGo probe op [] (some e)
        | .ok v => .ok v) = .ok v
    rw [hp, hop]
  · intro hp
    show (match probe p with
      | .error e => withAnyProviderGo probe op [] (some e)
      | .ok _ => match op p with
        | .error e => withAnyProviderGo probe op [] (some e)
        | .ok v => .ok v) = .error (some e)
    rw [hp]
    rfl

/-- Witness for the failover theorem: a two-provider pool over `Nat`
where provider 0 always fails its probe; with a live provider 1 the
operation result 41 comes back, and with failing provider 2 the pool
reports the last error 9. -/
theorem withAnyProvider_failover_witness :
    withAnyProvider (fun p => if p = 0 then Except.error 7 else if p = 2 then Except.error 9 else Except.ok 1)
      (fun p => Except.ok (40 + p)) [0, 1] = Except.ok 41 ∧
    withAnyProvider (fun p => if p = 0 then Except.error 7 else if p = 2 then Except.error 9 else Except.ok 1)
      (fun p => Except.ok (40 + p)) [0, 2] = Except.error (some 9) := by
  have hfail : ∀ q ∈ [0], ∃ err : Nat,
      (fun p => if p = 0 then Except.error 7 else if p = 2 then Except.error 9 else Except.ok (1 : Nat)) q = .error err := by
    intro q hq
    rcases List.mem_singleton.mp hq with rfl
    exact ⟨7, rfl⟩
  constructor
  · exact (withAnyProvider_failover _ _ [0] 1 1 41 9 hfail).1 rfl rfl
  · exact (withAnyProvider_failover _ _ [0] 2 1 41 9 hfail).2 rfl

/-- C2: with the pool on the accepted network and a successful receipt
present, a qualifying-transfer sum of exactly the required amount yields
`CONFIRMED` with that amount attached, and a sum of exactly one unit
less yields `PENDING` with the insufficient amount attached. -/
theorem verify_exact_amount_confirmed_one_less_pending
    (env : VerifyEnv) (r : Receipt)
    (hnet : env.network = .ok BASE_CHAIN_ID)
    (hrec : env.receiptFetch = .ok (some r))
    (hst : r.status = 1) :
    (((r.logs.filter specQualifyingLog).map specTransferAmount).sum = PRICE_USDC_UNITS →
      verify env = ([.network, .receiptQ],
        .ok ⟨true, "CONFIRMED", some PRICE_USDC_UNITS, "Payment confirmed."⟩)) ∧
    (((r.logs.filter specQualifyingLog).map specTransferAmount).sum = PRICE_USDC_UNITS - 1 →
      verify env = ([.network, .receiptQ],
        .ok ⟨true, "PENDING", some (PRICE_USDC_UNITS - 1),
             "Transaction found, but payment not detected yet."⟩)) := by
  have hpaid := getPaid_filter_sum r.logs
  constructor
  · intro h
    rw [h] at hpaid
    simp [verify, hnet, hrec, hst, hpaid]
  · intro h
    rw [h] at hpaid
    simp [verify, hnet, hrec, hst, hpaid, PRICE_USDC_UNITS]

/-- Witness for the exact-amount theorem: one qualifying USDC transfer of
3000000 units confirms; one of 2999999 units stays pending with the
insufficient sum attached. -/
theorem verify_exact_amount_witness :
    verify ⟨.ok 8453, .ok (some ⟨1, 5, none, none,
        [⟨some USDC_BASE, some (.transfer "0xdead" PAYMENT_ADDRESS 3000000)⟩]⟩),
      .ok none, .ok 9, .ok []⟩ =
      ([.network, .receiptQ], .ok ⟨true, "CONFIRMED", some 3000000, "Payment confirmed."⟩) ∧
    verify ⟨.ok 8453, .ok (some ⟨1, 5, none, none,
        [⟨some USDC_BASE, some (.transfer "0xdead" PAYMENT_ADDRESS 2999999)⟩]⟩),
      .ok none, .ok 9, .ok []⟩ =
      ([.network, .receiptQ], .ok ⟨true, "PENDING", some 2999999,
        "Transaction found, but payment not detected yet."⟩) := by
  constructor
  · exact (verify_exact_amount_confirmed_one_less_pending _ _ rfl rfl rfl).1 (by decide)
  · exact (verify_exact_amount_confirmed_one_less_pending _ _ rfl rfl rfl).2 (by decide)

/-- C4: a network id different from the accepted one makes `verify`
return the terminal wrong-network `FAILED` result no matter what any
receipt, transaction or log fetch would have produced, and the trace
shows the network read was the only pool read: no receipt, transaction
or log query is issued. -/
theorem verify_wrong_network_failed_before_any_receipt_query
    (env : VerifyEnv) (c : Nat)
    (hnet : env.network = .ok c) (hne : c ≠ BASE_CHAIN_ID) :
    verify env = ([.network],
      .ok ⟨false, "FAILED", none, "Wrong network. Payment must be on Base."⟩) ∧
    Rpc.receiptQ ∉ (verify env).1 ∧ Rpc.txQ ∉ (verify env).1 ∧
    Rpc.logsQ ∉ (verify env).1 := by
  have h : verify env = ([.network],
      .ok ⟨false, "FAILED", none, "Wrong network. Payment must be on Base."⟩) := by
    simp [verify, hnet, hne]
  refine ⟨h, ?_, ?_, ?_⟩ <;> rw [h] <;> decide

/-- Witness for the wrong-network theorem: network id 1 with a fully-paid
successful receipt available still fails with only the network read
issued. -/
theorem verify_wrong_network_witness :
    verify ⟨.ok 1, .ok (some ⟨1, 5, none, none,
        [⟨some USDC_BASE, some (.transfer "0xdead" PAYMENT_ADDRESS 3000000)⟩]⟩),
      .ok none, .ok 9, .ok []⟩ =
      ([.network], .ok ⟨false, "FAILED", none, "Wrong network. Payment must be on Base."⟩) :=
  (verify_wrong_network_failed_before_any_receipt_query _ 1 rfl (by decide)).1

/-- C6: in the verifier variant that enforces a minimum confirmation
depth, a present and successful receipt whose depth
`latest − inclusion + 1` is still below `MIN_CONFIRMATIONS` yields
`PENDING` even though the receipt exists. -/
theorem verifyConf_low_confirmations_pending
    (env : VerifyEnv) (r : Receipt) (latestBlock : Nat)
    (hnet : env.network = .ok BASE_CHAIN_ID)
    (hrec : env.receiptFetch = .ok (some r))
    (hst : r.status = 1)
    (hlat : env.latest = .ok latestBlock)
    (hdepth : (latestBlock : Int) - (r.blockNumber : Int) + 1 < MIN_CONFIRMATIONS) :
    verifyConf env = .ok ⟨true, "PENDING", none, "Waiting for confirmations."⟩ := by
  simp [verifyConf, hnet, hrec, hst, hlat, hdepth]

/-- Witness for the confirmation-depth theorem: a successful, fully-paid
receipt included at block 10 while the queried head is block 5 (depth
−4 < 1) stays `PENDING`. -/
theorem verifyConf_low_confirmations_witness :
    verifyConf ⟨.ok 8453, .ok (some ⟨1, 10, none, none,
        [⟨some USDC_BASE, some (.transfer "0xdead" PAYMENT_ADDRESS 3000000)⟩]⟩),
      .ok none, .ok 5, .ok []⟩ =
      .ok ⟨true, "PENDING", none, "Waiting for confirmations."⟩ :=
  verifyConf_low_confirmations_pending _ _ 5 rfl rfl rfl rfl (by decide)

/-- C1 (code bug): the explain route of `src/app/api/explain/route.ts`
accepts no payment reference at all, yet returns `accessUnlocked = true`
for any request whose target transaction and receipt load — here a
concrete request with no payment reference supplied — contradicting the
contract that the unlock flag is `false` whenever no payment reference
is supplied. -/
theorem explainGET_unlocks_without_payment_reference :
    (explainGET "0xaaaaaaaaaaaaaaaaaaaaaaaaaaaaaaaaaaaaaaaaaaaaaaaaaaaaaaaaaaaaaaaa"
        ⟨.ok (some ⟨some "0xabc1230000", some "0xdef4560000", 5, "0x", some 3⟩),
         .ok (some ⟨1, 3, none, none, []⟩)⟩).2.accessUnlocked = true := by
  decide

lemma isPaymentConfirmed_error (payTx : String) :
    isPaymentConfirmed payTx (.error ()) = false := by
  unfold isPaymentConfirmed
  split <;> rfl

lemma specQualifyingLog_of_undecoded (log : EventLog) (h : log.decoded = none) :
    specQualifyingLog log = false := by
  rcases log with ⟨addr, dec⟩
  cases h
  rcases addr with _ | a <;> rfl

/-- C8: whenever the target transaction record and receipt are both
available, both explain variants label the transaction `ETH transfer`
exactly when its value is strictly positive and its call payload is the
empty `"0x"`, and `Contract interaction` in every other case — for any
payment parameter and any payment-verification outcome. -/
theorem explain_summary_eth_transfer_iff
    (rawTx rawPayTx : String) (genv : GatedEnv) (penv : FetchEnv) (t : Tx) (r : Receipt)
    (htx : isTxHash (jsTrim rawTx) = true)
    (hgt : genv.txFetch = .ok (some t)) (hgr : genv.receiptFetch = .ok (some r))
    (hpt : penv.txFetch = .ok (some t)) (hpr : penv.receiptFetch = .ok (some r)) :
    (explainPayGET rawTx rawPayTx genv).2.summary =
      (if 0 < t.value ∧ t.data = "0x" then "ETH transfer" else "Contract interaction") ∧
    (explainGET rawTx penv).2.summary =
      (if 0 < t.value ∧ t.data = "0x" then "ETH transfer" else "Contract interaction") := by
  have hne : ¬(jsTrim rawTx = "" ∨ isTxHash (jsTrim rawTx) = false) := by
    rintro (h | h)
    · rw [h] at htx
      exact absurd htx (by decide)
    · rw [h] at htx
      cases htx
  constructor
  · simp only [explainPayGET, if_neg hne, hgt, hgr]
  · simp only [explainGET, if_neg hne, hpt, hpr]

/-- Witness for the summary theorem: a positive-value, empty-payload
transaction is summarised `ETH transfer` by both explain variants. -/
theorem explain_summary_eth_transfer_witness :
    (explainPayGET "0xbbbbbbbbbbbbbbbbbbbbbbbbbbbbbbbbbbbbbbbbbbbbbbbbbbbbbbbbbbbbbbbb" ""
        ⟨.ok none, .ok (some ⟨some "0xabc1230000", some "0xdef4560000", 5, "0x", some 3⟩),
         .ok (some ⟨1, 3, none, none, []⟩)⟩).2.summary = "ETH transfer" ∧
    (explainGET "0xbbbbbbbbbbbbbbbbbbbbbbbbbbbbbbbbbbbbbbbbbbbbbbbbbbbbbbbbbbbbbbbb"
        ⟨.ok (some ⟨some "0xabc1230000", some "0xdef4560000", 5, "0x", some 3⟩),
         .ok (some ⟨1, 3, none, none, []⟩)⟩).2.summary = "ETH transfer" := by
  have h := explain_summary_eth_transfer_iff
    "0xbbbbbbbbbbbbbbbbbbbbbbbbbbbbbbbbbbbbbbbbbbbbbbbbbbbbbbbbbbbbbbbb" ""
    ⟨.ok none, .ok (some ⟨some "0xabc1230000", some "0xdef4560000", 5, "0x", some 3⟩),
     .ok (some ⟨1, 3, none, none, []⟩)⟩
    ⟨.ok (some ⟨some "0xabc1230000", some "0xdef4560000", 5, "0x", some 3⟩),
     .ok (some ⟨1, 3, none, none, []⟩)⟩
    ⟨some "0xabc1230000", some "0xdef4560000", 5, "0x", some 3⟩
    ⟨1, 3, none, none, []⟩ (by decide) rfl rfl rfl rfl
  exact ⟨h.1.trans (by decide), h.2.trans (by decide)⟩

/-- C10: in the gated explain variant, every failure mode of payment
verification leaves the unlock flag `false`: a provider-pool throw while
fetching the payment receipt (caught inside `isPaymentConfirmed`), a
missing receipt, a receipt none of whose logs decode, and — at the
handler level — a pool throw during payment verification, whatever the
rest of the request does. -/
theorem payment_verification_error_never_unlocks :
    (∀ payTx : String, isPaymentConfirmed payTx (.error ()) = false) ∧
    (∀ payTx : String, isPaymentConfirmed payTx (.ok none) = false) ∧
    (∀ (payTx : String) (r : Receipt), (∀ l ∈ r.logs, l.decoded = none) →
      isPaymentConfirmed payTx (.ok (some r)) = false) ∧
    (∀ (rawTx rawPayTx : String) (tf : Except Unit (Option Tx))
        (rf : Except Unit (Option Receipt)),
      (explainPayGET rawTx rawPayTx ⟨.error (), tf, rf⟩).2.accessUnlocked = false) := by
  refine ⟨isPaymentConfirmed_error, ?_, ?_, ?_⟩
  · intro payTx
    unfold isPaymentConfirmed
    split <;> rfl
  · intro payTx r hlogs
    have hzero : getPaidAmountFromLogs r.logs = 0 := by
      rw [getPaid_filter_sum]
      have hnil : r.logs.filter specQualifyingLog = [] := by
        rw [List.filter_eq_nil_iff]
        intro l hl
        rw [specQualifyingLog_of_undecoded l (hlogs l hl)]
        decide
      rw [hnil]
      rfl
    unfold isPaymentConfirmed
    split
    · rfl
    · simp [hzero, PRICE_USDC_UNITS]
  · intro rawTx rawPayTx tf rf
    by_cases hval : jsTrim rawTx = "" ∨ isTxHash (jsTrim rawTx) = false
    · simp [explainPayGET, hval]
    · cases tf with
      | error e =>
        simp [explainPayGET, if_neg hval, isPaymentConfirmed_error]
      | ok t =>
        cases rf with
        | error e =>
          simp [explainPayGET, if_neg hval, isPaymentConfirmed_error]
        | ok r =>
          cases t with
          | none => simp [explainPayGET, if_neg hval, isPaymentConfirmed_error]
          | some t => simp [explainPayGET, if_neg hval, isPaymentConfirmed_error]

/-- Witness for the error-never-unlocks theorem, at a well-formed payment
hash: pool throw, missing receipt, a receipt with one undecodable USDC
log, and a full gated request with the payment-receipt fetch throwing,
all leave the flag `false`. -/
theorem payment_verification_error_never_unlocks_witness :
    isPaymentConfirmed "0xcccccccccccccccccccccccccccccccccccccccccccccccccccccccccccccc"
      (.error ()) = false ∧
    isPaymentConfirmed "0xcccccccccccccccccccccccccccccccccccccccccccccccccccccccccccccc"
      (.ok none) = false ∧
    isPaymentConfirmed "0xcccccccccccccccccccccccccccccccccccccccccccccccccccccccccccccc"
      (.ok (some ⟨1, 5, none, none, [⟨some USDC_BASE, none⟩]⟩)) = false ∧
    (explainPayGET "0xbbbbbbbbbbbbbbbbbbbbbbbbbbbbbbbbbbbbbbbbbbbbbbbbbbbbbbbbbbbbbbbb"
        "0xcccccccccccccccccccccccccccccccccccccccccccccccccccccccccccccc"
        ⟨.error (), .ok (some ⟨some "0xabc1230000", none, 5, "0x", some 3⟩),
         .ok none⟩).2.accessUnlocked = false := by
  have h := payment_verification_error_never_unlocks
  exact ⟨h.1 _, h.2.1 _, h.2.2.1 _ _ (by decide), h.2.2.2 _ _ _ _⟩

/-- C5 (amended): every input string whose whitespace-trimmed form does
not match the 0x-prefixed 64-hex-digit pattern is rejected by all three
public handlers before any pool read: `verifyPaymentGET` answers HTTP
400 with a `FAILED` body, and both explain variants answer the
paste-a-hash placeholder with the unlock flag `false`, each with an
empty read trace. -/
theorem invalid_trimmed_hash_rejected_without_network
    (s rawPayTx : String) (env : VerifyEnv) (genv : GatedEnv) (penv : FetchEnv)
    (h : isTxHash (jsTrim s) = false) :
    verifyPaymentGET s env = ([], .ok (400, ⟨false, "FAILED", none, "Invalid tx hash."⟩)) ∧
    explainPayGET s rawPayTx genv = ([],
      ⟨"Paste a transaction hash", none,
       "Enter a valid Base transaction hash (0x...) and press Explain.",
       basescanUrl (jsTrim s), false⟩) ∧
    explainGET s penv = ([],
      ⟨"Paste a transaction hash",
       "Enter a valid Base transaction hash to see what really happened.",
       basescanUrl (jsTrim s), false⟩) := by
  refine ⟨?_, ?_, ?_⟩
  · simp [verifyPaymentGET, h]
  · simp only [explainPayGET, if_pos (Or.inr h)]
  · simp only [explainGET, if_pos (Or.inr h)]

/-- Witness for the rejection theorem: the malformed input `"0xzz"` is
turned away by all three handlers with no pool read. -/
theorem invalid_trimmed_hash_rejected_witness :
    verifyPaymentGET "0xzz" ⟨.ok 8453, .ok none, .ok none, .ok 9, .ok []⟩ =
      ([], .ok (400, ⟨false, "FAILED", none, "Invalid tx hash."⟩)) ∧
    explainPayGET "0xzz" "" ⟨.ok none, .ok none, .ok none⟩ = ([],
      ⟨"Paste a transaction hash", none,
       "Enter a valid Base transaction hash (0x...) and press Explain.",
       basescanUrl (jsTrim "0xzz"), false⟩) ∧
    explainGET "0xzz" ⟨.ok none, .ok none⟩ = ([],
      ⟨"Paste a transaction hash",
       "Enter a valid Base transaction hash to see what really happened.",
       basescanUrl (jsTrim "0xzz"), false⟩) :=
  invalid_trimmed_hash_rejected_without_network "0xzz" ""
    ⟨.ok 8453, .ok none, .ok none, .ok 9, .ok []⟩
    ⟨.ok none, .ok none, .ok none⟩ ⟨.ok none, .ok none⟩ (by decide)

/-- C5 counterexample to the claim as stated: the raw query parameter
below (a valid hash padded with one leading space) does not match the
0x-prefixed 64-hex-digit pattern, yet `verifyPaymentGET` does not
reject it — the handler trims it first, accepts the result, and issues
a network-id pool read (reaching the wrong-network check instead of the
invalid-hash rejection, and answering HTTP 200). -/
theorem padded_hash_not_rejected_counterexample :
    isTxHash " 0x1111111111111111111111111111111111111111111111111111111111111111" = false ∧
    verifyPaymentGET " 0x1111111111111111111111111111111111111111111111111111111111111111"
      ⟨.ok 1, .ok none, .ok none, .ok 0, .ok []⟩ =
      ([Rpc.network],
       .ok (200, ⟨false, "FAILED", none, "Wrong network. Payment must be on Base."⟩)) := by
  constructor
  · decide
  · rfl
